import Mathlib

/-!
# Verification of the solana-token instruction codec and dispatcher

Shallow embedding of the core of the `solana-token` program:
`src/instruction.rs` (the borsh wire codec for `TokenInstruction` and the
client-side instruction builders) and `src/processor.rs` (the dispatcher
`Processor::process` with its three handlers).

Modelling conventions:
* Public keys (`Pubkey`) are opaque; they are modelled as `Nat` tags.
* Bytes are `Nat` values (< 256 on every byte the program itself produces).
* The host's `invoke` facility is an oracle parameter
  `inv : ExternalCall → Except ProgramError Unit`; the dispatcher returns
  both its `ProgramResult` and the list of external calls it handed to
  `invoke` (the call log), so that "no external call is issued" is an
  observable statement.
* The external instruction constructors `system_instruction::transfer`,
  `spl_token::instruction::transfer` and `spl_token::instruction::approve`
  belong to external crates and are treated, as the specification's §6
  prescribes, as pure constructors of call descriptions.
* `msg!` diagnostic logging returns unit and touches no program state; it has
  no counterpart in the embedding.
-/

/-- The subset of `solana_program::program_error::ProgramError` this program
can produce: `BorshIoError` (from `try_from_slice` failures; the spec calls
this `MalformedInstruction`), `NotEnoughAccountKeys` (from
`next_account_info` on an exhausted iterator; the spec calls this
`MissingAccount`), `MissingRequiredSignature`, and `Custom code` (used for
`TransferError::AccountNonWritable as u32 = 0`). -/
inductive ProgramError where
  | BorshIoError : ProgramError
  | NotEnoughAccountKeys : ProgramError
  | MissingRequiredSignature : ProgramError
  | Custom : Nat → ProgramError
deriving DecidableEq, Repr

/-- `TransferError` from `src/error.rs`: a one-variant error enum. -/
inductive TransferError where
  | AccountNonWritable : TransferError
deriving DecidableEq, Repr

/-- `impl From<TransferError> for ProgramError`: `ProgramError::Custom(e as u32)`;
`AccountNonWritable` is discriminant 0. -/
def TransferError.toProgramError : TransferError → ProgramError
  | .AccountNonWritable => .Custom 0

/-- The `TokenInstruction` enum from `src/instruction.rs`. `amount` is a Rust
`u64`, modelled as `Nat`; where a claim needs the machine bound it carries the
explicit hypothesis `amount < 2 ^ 64`. -/
inductive TokenInstruction where
  | TransferLamports : Nat → TokenInstruction
  | TransferSplToken : Nat → TokenInstruction
  | ApproveSplToken : Nat → TokenInstruction
deriving DecidableEq, Repr

/-- The `amount` field common to the three `TokenInstruction` variants. -/
def TokenInstruction.amount : TokenInstruction → Nat
  | .TransferLamports a => a
  | .TransferSplToken a => a
  | .ApproveSplToken a => a

/-- Value of eight little-endian bytes (borsh `u64` decoding). -/
def leDecode8 (b0 b1 b2 b3 b4 b5 b6 b7 : Nat) : Nat :=
  b0 + 256 * (b1 + 256 * (b2 + 256 * (b3 + 256 * (b4 + 256 * (b5 + 256 * (b6 + 256 * b7))))))

/-- The eight little-endian bytes of a `u64` (borsh `u64` encoding). -/
def leEncode8 (n : Nat) : List Nat :=
  [n % 256, n / 256 % 256, n / 256 ^ 2 % 256, n / 256 ^ 3 % 256,
   n / 256 ^ 4 % 256, n / 256 ^ 5 % 256, n / 256 ^ 6 % 256, n / 256 ^ 7 % 256]

/-- Borsh reader for a `u64`: consumes exactly eight bytes, little-endian;
fails when fewer than eight bytes remain. -/
def readU64LE (bs : List Nat) : Except ProgramError (Nat × List Nat) :=
  match bs with
  | b0 :: b1 :: b2 :: b3 :: b4 :: b5 :: b6 :: b7 :: rest =>
      .ok (leDecode8 b0 b1 b2 b3 b4 b5 b6 b7, rest)
  | _ => .error .BorshIoError

/-- Borsh `deserialize_reader` for `TokenInstruction`: one discriminant byte
(0, 1 or 2) followed by the `u64` amount; any other discriminant fails. -/
def deserializeReader (input : List Nat) :
    Except ProgramError (TokenInstruction × List Nat) :=
  match input with
  | [] => .error .BorshIoError
  | d :: rest =>
    if d = 0 then
      (readU64LE rest).map (fun p => (.TransferLamports p.1, p.2))
    else if d = 1 then
      (readU64LE rest).map (fun p => (.TransferSplToken p.1, p.2))
    else if d = 2 then
      (readU64LE rest).map (fun p => (.ApproveSplToken p.1, p.2))
    else .error .BorshIoError

/-- Borsh `TokenInstruction::try_from_slice`: deserialize, then require that
the whole buffer was consumed (borsh rejects trailing bytes). -/
def tryFromSlice (input : List Nat) : Except ProgramError TokenInstruction :=
  match deserializeReader input with
  | .error e => .error e
  | .ok (instr, rest) => if rest = [] then .ok instr else .error .BorshIoError

/-- Borsh `try_to_vec` / `BorshSerialize` for `TokenInstruction`: discriminant
byte then the amount in little-endian. -/
def tryToVec : TokenInstruction → List Nat
  | .TransferLamports a => 0 :: leEncode8 a
  | .TransferSplToken a => 1 :: leEncode8 a
  | .ApproveSplToken a => 2 :: leEncode8 a

/-- `solana_program::account_info::AccountInfo`, restricted to the fields the
program reads: the key and the two permission flags. -/
structure AccountInfo where
  key : Nat
  is_signer : Bool
  is_writable : Bool
deriving DecidableEq, Repr

/-- The descriptions of the external calls the program can hand to `invoke`:
`system_instruction::transfer(from, to, amount)`,
`spl_token::instruction::transfer(token_program_id, source, destination,
authority, signer_keys, amount)` and `spl_token::instruction::approve`
with the same shape (spec §6). -/
inductive ExternalCall where
  | systemTransfer : Nat → Nat → Nat → ExternalCall
  | splTransfer : Nat → Nat → Nat → Nat → List Nat → Nat → ExternalCall
  | splApprove : Nat → Nat → Nat → Nat → List Nat → Nat → ExternalCall
deriving DecidableEq, Repr

/-- `solana_program::account_info::next_account_info`: pop the next account
from the iterator, failing with `NotEnoughAccountKeys` when it is exhausted. -/
def nextAccountInfo (accounts : List AccountInfo) :
    Except ProgramError (AccountInfo × List AccountInfo) :=
  match accounts with
  | [] => .error .NotEnoughAccountKeys
  | a :: rest => .ok (a, rest)

namespace Processor

/-- `Processor::transfer_lamports` (src/processor.rs): fetch `from` and `to`
via `next_account_info`, check `from.is_signer`, `from.is_writable`,
`to.is_writable` in that order, then build the system-transfer call and
`invoke` it. Returns the `ProgramResult` with the log of calls invoked. -/
def transfer_lamports (inv : ExternalCall → Except ProgramError Unit)
    (accounts : List AccountInfo) (amount : Nat) :
    Except ProgramError Unit × List ExternalCall :=
  match nextAccountInfo accounts with
  | .error e => (.error e, [])
  | .ok (from_acc, it1) =>
    match nextAccountInfo it1 with
    | .error e => (.error e, [])
    | .ok (to_acc, _) =>
      if from_acc.is_signer = false then
        (.error .MissingRequiredSignature, [])
      else if from_acc.is_writable = false then
        (.error (TransferError.toProgramError .AccountNonWritable), [])
      else if to_acc.is_writable = false then
        (.error (TransferError.toProgramError .AccountNonWritable), [])
      else
        let transfer_instr := ExternalCall.systemTransfer from_acc.key to_acc.key amount
        match inv transfer_instr with
        | .error e => (.error e, [transfer_instr])
        | .ok _ => (.ok (), [transfer_instr])

/-- `Processor::transfer_spl_token` (src/processor.rs): fetch owner, source,
destination and token-program accounts, check `owner.is_signer`,
`from_spl_token.is_writable`, `to_spl_token.is_writable` in that order, then
build the SPL transfer call and `invoke` it. -/
def transfer_spl_token (inv : ExternalCall → Except ProgramError Unit)
    (accounts : List AccountInfo) (amount : Nat) :
    Except ProgramError Unit × List ExternalCall :=
  match nextAccountInfo accounts with
  | .error e => (.error e, [])
  | .ok (owner_acc, it1) =>
    match nextAccountInfo it1 with
    | .error e => (.error e, [])
    | .ok (from_spl_token_acc, it2) =>
      match nextAccountInfo it2 with
      | .error e => (.error e, [])
      | .ok (to_spl_token_acc, it3) =>
        match nextAccountInfo it3 with
        | .error e => (.error e, [])
        | .ok (spl_token_acc, _) =>
          if owner_acc.is_signer = false then
            (.error .MissingRequiredSignature, [])
          else if from_spl_token_acc.is_writable = false then
            (.error (TransferError.toProgramError .AccountNonWritable), [])
          else if to_spl_token_acc.is_writable = false then
            (.error (TransferError.toProgramError .AccountNonWritable), [])
          else
            let transfer_instr := ExternalCall.splTransfer spl_token_acc.key
              from_spl_token_acc.key to_spl_token_acc.key owner_acc.key
              [owner_acc.key] amount
            match inv transfer_instr with
            | .error e => (.error e, [transfer_instr])
            | .ok _ => (.ok (), [transfer_instr])

/-- `Processor::approve_spl_token` (src/processor.rs): identical account
schema and flag checks to `transfer_spl_token`, terminal call
`spl_token::instruction::approve`. -/
def approve_spl_token (inv : ExternalCall → Except ProgramError Unit)
    (accounts : List AccountInfo) (amount : Nat) :
    Except ProgramError Unit × List ExternalCall :=
  match nextAccountInfo accounts with
  | .error e => (.error e, [])
  | .ok (owner_acc, it1) =>
    match nextAccountInfo it1 with
    | .error e => (.error e, [])
    | .ok (from_spl_token_acc, it2) =>
      match nextAccountInfo it2 with
      | .error e => (.error e, [])
      | .ok (to_spl_token_acc, it3) =>
        match nextAccountInfo it3 with
        | .error e => (.error e, [])
        | .ok (spl_token_acc, _) =>
          if owner_acc.is_signer = false then
            (.error .MissingRequiredSignature, [])
          else if from_spl_token_acc.is_writable = false then
            (.error (TransferError.toProgramError .AccountNonWritable), [])
          else if to_spl_token_acc.is_writable = false then
            (.error (TransferError.toProgramError .AccountNonWritable), [])
          else
            let approve_instr := ExternalCall.splApprove spl_token_acc.key
              from_spl_token_acc.key to_spl_token_acc.key owner_acc.key
              [owner_acc.key] amount
            match inv approve_instr with
            | .error e => (.error e, [approve_instr])
            | .ok _ => (.ok (), [approve_instr])

/-- `Processor::process` (src/processor.rs): decode the input with
`try_from_slice` (propagating its failure) and dispatch on the variant. -/
def process (inv : ExternalCall → Except ProgramError Unit)
    (accounts : List AccountInfo) (input : List Nat) :
    Except ProgramError Unit × List ExternalCall :=
  match tryFromSlice input with
  | .error e => (.error e, [])
  | .ok (.TransferLamports amount) => transfer_lamports inv accounts amount
  | .ok (.TransferSplToken amount) => transfer_spl_token inv accounts amount
  | .ok (.ApproveSplToken amount) => approve_spl_token inv accounts amount

end Processor

/-- An `invoke` oracle that accepts every call. -/
def invokeOk : ExternalCall → Except ProgramError Unit := fun _ => .ok ()

/-- The kinds of failure the dispatcher itself produces before any external
call is issued: decode failure, missing account, missing signature, or a
non-writable account (`Custom 0`). -/
def PreCallError (e : ProgramError) : Prop :=
  e = .BorshIoError ∨ e = .NotEnoughAccountKeys ∨
    e = .MissingRequiredSignature ∨ e = .Custom 0

/-- `crate::id()`, the constant declared by `declare_id!` in src/lib.rs.
Keys are opaque base58 identities; distinct constants model the distinct
identities. -/
def solana_token_id : Nat := 100

/-- `solana_program::system_program::id()`. -/
def system_program_id : Nat := 101

/-- `spl_token::id()`. -/
def spl_token_id : Nat := 102

/-- `solana_program::instruction::AccountMeta`. -/
structure AccountMeta where
  pubkey : Nat
  is_signer : Bool
  is_writable : Bool
deriving DecidableEq, Repr

/-- `AccountMeta::new(pubkey, is_signer)`: a writable meta. -/
def AccountMeta.new (pubkey : Nat) (s : Bool) : AccountMeta :=
  ⟨pubkey, s, true⟩

/-- `AccountMeta::new_readonly(pubkey, is_signer)`: a read-only meta. -/
def AccountMeta.new_readonly (pubkey : Nat) (s : Bool) : AccountMeta :=
  ⟨pubkey, s, false⟩

/-- The host hands the dispatcher an `AccountInfo` carrying exactly the key
and flags requested by the meta. -/
def AccountMeta.toAccountInfo (m : AccountMeta) : AccountInfo :=
  ⟨m.pubkey, m.is_signer, m.is_writable⟩

/-- `solana_program::instruction::Instruction`. -/
structure Instruction where
  program_id : Nat
  accounts : List AccountMeta
  data : List Nat
deriving DecidableEq, Repr

/-- `Instruction::new_with_borsh(program_id, &instr, accounts)`: the data
field is the borsh serialization of `instr`. -/
def Instruction.new_with_borsh (pid : Nat) (instr : TokenInstruction)
    (accounts : List AccountMeta) : Instruction :=
  ⟨pid, accounts, tryToVec instr⟩

namespace TokenInstruction

/-- `TokenInstruction::transfer_lamports` builder (src/instruction.rs):
`[new(from, true), new(to, false), new_readonly(system_program::id(), false)]`. -/
def transfer_lamports (fromKey toKey : Nat) (amount : Nat) : Instruction :=
  Instruction.new_with_borsh solana_token_id (.TransferLamports amount)
    [AccountMeta.new fromKey true, AccountMeta.new toKey false,
     AccountMeta.new_readonly system_program_id false]

/-- `TokenInstruction::transfer_spl_token` builder (src/instruction.rs):
`[new_readonly(from, true), new(from_spl_token, false), new(to_spl_token,
false), new_readonly(spl_token::id(), false)]`. -/
def transfer_spl_token (fromKey from_spl_token to_spl_token : Nat)
    (amount : Nat) : Instruction :=
  Instruction.new_with_borsh solana_token_id (.TransferSplToken amount)
    [AccountMeta.new_readonly fromKey true,
     AccountMeta.new from_spl_token false,
     AccountMeta.new to_spl_token false,
     AccountMeta.new_readonly spl_token_id false]

/-- `TokenInstruction::approve_spl_token` builder (src/instruction.rs): same
account metas as `transfer_spl_token`, `ApproveSplToken` payload. -/
def approve_spl_token (fromKey from_spl_token to_spl_token : Nat)
    (amount : Nat) : Instruction :=
  Instruction.new_with_borsh solana_token_id (.ApproveSplToken amount)
    [AccountMeta.new_readonly fromKey true,
     AccountMeta.new from_spl_token false,
     AccountMeta.new to_spl_token false,
     AccountMeta.new_readonly spl_token_id false]

end TokenInstruction

/-! ## Helper lemmas about the codec -/

theorem le_roundtrip (n : Nat) (h : n < 2 ^ 64) :
    leDecode8 (n % 256) (n / 256 % 256) (n / 256 ^ 2 % 256) (n / 256 ^ 3 % 256)
      (n / 256 ^ 4 % 256) (n / 256 ^ 5 % 256) (n / 256 ^ 6 % 256)
      (n / 256 ^ 7 % 256) = n := by
  unfold leDecode8
  norm_num
  omega

theorem readU64LE_ok_length (bs : List Nat) (a : Nat) (r : List Nat)
    (h : readU64LE bs = .ok (a, r)) : bs.length = 8 + r.length := by
  unfold readU64LE at h
  split at h
  · simp only [Except.ok.injEq, Prod.mk.injEq] at h
    obtain ⟨-, rfl⟩ := h
    simp only [List.length_cons]
    omega
  · exact absurd h (by simp)

theorem readU64LE_error (bs : List Nat) (e : ProgramError)
    (h : readU64LE bs = .error e) : e = .BorshIoError := by
  unfold readU64LE at h
  split at h
  · exact absurd h (by simp)
  · simp only [Except.error.injEq] at h
    exact h.symm

theorem deserializeReader_ok_length (input : List Nat) (i : TokenInstruction)
    (r : List Nat) (h : deserializeReader input = .ok (i, r)) :
    input.length = 9 + r.length := by
  cases input with
  | nil => simp [deserializeReader] at h
  | cons d rest =>
    simp only [deserializeReader] at h
    simp only [List.length_cons]
    split_ifs at h <;>
    · rcases hr : readU64LE rest with e | p
      · rw [hr] at h; simp [Except.map] at h
      · rw [hr] at h
        simp only [Except.map, Except.ok.injEq, Prod.mk.injEq] at h
        obtain ⟨-, rfl⟩ := h
        have := readU64LE_ok_length rest p.1 p.2 (by rw [hr])
        omega

theorem deserializeReader_error (input : List Nat) (e : ProgramError)
    (h : deserializeReader input = .error e) : e = .BorshIoError := by
  cases input with
  | nil =>
    simp only [deserializeReader, Except.error.injEq] at h
    exact h.symm
  | cons d rest =>
    simp only [deserializeReader] at h
    split_ifs at h with h0 h1 h2
    · rcases hr : readU64LE rest with e' | p
      · rw [hr] at h
        simp only [Except.map, Except.error.injEq] at h
        subst h
        exact readU64LE_error rest e' hr
      · rw [hr] at h; simp [Except.map] at h
    · rcases hr : readU64LE rest with e' | p
      · rw [hr] at h
        simp only [Except.map, Except.error.injEq] at h
        subst h
        exact readU64LE_error rest e' hr
      · rw [hr] at h; simp [Except.map] at h
    · rcases hr : readU64LE rest with e' | p
      · rw [hr] at h
        simp only [Except.map, Except.error.injEq] at h
        subst h
        exact readU64LE_error rest e' hr
      · rw [hr] at h; simp [Except.map] at h
    · simp only [Except.error.injEq] at h
      exact h.symm

theorem tryFromSlice_ok_length (input : List Nat) (i : TokenInstruction)
    (h : tryFromSlice input = .ok i) : input.length = 9 := by
  unfold tryFromSlice at h
  split at h
  · simp at h
  · rename_i p instr rest heq
    split_ifs at h with hrest
    subst hrest
    have := deserializeReader_ok_length input instr [] heq
    simpa using this

theorem tryFromSlice_error (input : List Nat) (e : ProgramError)
    (h : tryFromSlice input = .error e) : e = .BorshIoError := by
  unfold tryFromSlice at h
  split at h
  · rename_i p e' heq
    simp only [Except.error.injEq] at h
    subst h
    exact deserializeReader_error input _ heq
  · rename_i p instr rest heq
    split_ifs at h
    simp only [Except.error.injEq] at h
    exact h.symm

theorem tryFromSlice_tryToVec (op : TokenInstruction)
    (h : op.amount < 2 ^ 64) : tryFromSlice (tryToVec op) = .ok op := by
  cases op <;>
  · simp only [TokenInstruction.amount] at h
    simp [tryToVec, leEncode8, tryFromSlice, deserializeReader, readU64LE,
      Except.map, leDecode8]
    omega

theorem process_decode_error (inv : ExternalCall → Except ProgramError Unit)
    (accounts : List AccountInfo) (input : List Nat)
    (h : tryFromSlice input = .error .BorshIoError) :
    Processor.process inv accounts input = (.error .BorshIoError, []) := by
  unfold Processor.process
  rw [h]

theorem process_ok_lamports (inv : ExternalCall → Except ProgramError Unit)
    (accounts : List AccountInfo) (input : List Nat) (amount : Nat)
    (h : tryFromSlice input = .ok (.TransferLamports amount)) :
    Processor.process inv accounts input =
      Processor.transfer_lamports inv accounts amount := by
  unfold Processor.process
  rw [h]

theorem process_ok_splTransfer (inv : ExternalCall → Except ProgramError Unit)
    (accounts : List AccountInfo) (input : List Nat) (amount : Nat)
    (h : tryFromSlice input = .ok (.TransferSplToken amount)) :
    Processor.process inv accounts input =
      Processor.transfer_spl_token inv accounts amount := by
  unfold Processor.process
  rw [h]

theorem process_ok_splApprove (inv : ExternalCall → Except ProgramError Unit)
    (accounts : List AccountInfo) (input : List Nat) (amount : Nat)
    (h : tryFromSlice input = .ok (.ApproveSplToken amount)) :
    Processor.process inv accounts input =
      Processor.approve_spl_token inv accounts amount := by
  unfold Processor.process
  rw [h]

/-! ## The claims -/

/-- C1: for every `TransferNative` dispatch in which the position-0 account is
not a signer, the result is `MissingRequiredSignature` with no external call,
whatever the writable flags of the position-0 and position-1 accounts are
(both are universally quantified here): the signer check runs before any
writable check. -/
theorem transferNative_nonsigner_missingSignature
    (inv : ExternalCall → Except ProgramError Unit) (input : List Nat)
    (amount : Nat) (a0 a1 : AccountInfo) (rest : List AccountInfo)
    (hdec : tryFromSlice input = .ok (.TransferLamports amount))
    (hsig : a0.is_signer = false) :
    Processor.process inv (a0 :: a1 :: rest) input =
      (.error .MissingRequiredSignature, []) := by
  rw [process_ok_lamports inv _ input amount hdec]
  simp [Processor.transfer_lamports, nextAccountInfo, hsig]

/-- Witness for C1: a non-signer source with both accounts writable still
fails with `MissingRequiredSignature`. -/
theorem transferNative_nonsigner_missingSignature_witness :
    Processor.process invokeOk [⟨0, false, true⟩, ⟨1, false, true⟩]
      (tryToVec (.TransferLamports 7)) =
      (.error .MissingRequiredSignature, []) :=
  transferNative_nonsigner_missingSignature invokeOk _ 7 ⟨0, false, true⟩
    ⟨1, false, true⟩ [] rfl rfl

/-- C2: for every `TransferNative` dispatch in which the position-0 account is
a writable signer but the position-1 account is not writable, the result is
`AccountNonWritable` (`Custom 0`) and the call log is empty: the external
native-transfer call is never invoked. -/
theorem transferNative_dest_nonwritable_accountNonWritable
    (inv : ExternalCall → Except ProgramError Unit) (input : List Nat)
    (amount : Nat) (a0 a1 : AccountInfo) (rest : List AccountInfo)
    (hdec : tryFromSlice input = .ok (.TransferLamports amount))
    (hsig : a0.is_signer = true) (hw0 : a0.is_writable = true)
    (hw1 : a1.is_writable = false) :
    Processor.process inv (a0 :: a1 :: rest) input =
      (.error (TransferError.toProgramError .AccountNonWritable), []) := by
  rw [process_ok_lamports inv _ input amount hdec]
  simp [Processor.transfer_lamports, nextAccountInfo, hsig, hw0, hw1]

/-- Witness for C2 at a concrete account list and amount. -/
theorem transferNative_dest_nonwritable_accountNonWritable_witness :
    Processor.process invokeOk [⟨2, true, true⟩, ⟨3, false, false⟩]
      (tryToVec (.TransferLamports 8)) =
      (.error (TransferError.toProgramError .AccountNonWritable), []) :=
  transferNative_dest_nonwritable_accountNonWritable invokeOk _ 8
    ⟨2, true, true⟩ ⟨3, false, false⟩ [] rfl rfl rfl rfl

/-- C5: for every `TransferNative` dispatch whose accounts pass all flag
checks, exactly one native-transfer call is logged, built from the position-0
key, the position-1 key and the decoded amount unchanged (`amount = 0`
included: the amount is universally quantified, with no minimum check), and
the dispatch outcome is exactly the outcome of that call — success when it
succeeds. -/
theorem transferNative_valid_issues_one_call
    (inv : ExternalCall → Except ProgramError Unit) (input : List Nat)
    (amount : Nat) (a0 a1 : AccountInfo) (rest : List AccountInfo)
    (hdec : tryFromSlice input = .ok (.TransferLamports amount))
    (hsig : a0.is_signer = true) (hw0 : a0.is_writable = true)
    (hw1 : a1.is_writable = true) :
    Processor.process inv (a0 :: a1 :: rest) input =
      (inv (.systemTransfer a0.key a1.key amount),
       [.systemTransfer a0.key a1.key amount]) := by
  rw [process_ok_lamports inv _ input amount hdec]
  simp only [Processor.transfer_lamports, nextAccountInfo, hsig, hw0, hw1]
  rcases hi : inv (.systemTransfer a0.key a1.key amount) with e | ⟨⟩ <;>
    simp [hi]

/-- Witness for C5: the spec's end-to-end scenario — accounts
`[A(signer, writable), B(writable), C(any)]`, payload `TransferNative`
amount 1111111 — issues exactly one call `(A, B, 1111111)` and succeeds;
and a zero amount is forwarded unchanged. -/
theorem transferNative_valid_issues_one_call_witness :
    Processor.process invokeOk
      [⟨10, true, true⟩, ⟨11, false, true⟩, ⟨12, false, false⟩]
      (tryToVec (.TransferLamports 1111111)) =
      (.ok (), [.systemTransfer 10 11 1111111]) ∧
    Processor.process invokeOk [⟨10, true, true⟩, ⟨11, false, true⟩]
      (tryToVec (.TransferLamports 0)) =
      (.ok (), [.systemTransfer 10 11 0]) :=
  ⟨transferNative_valid_issues_one_call invokeOk _ 1111111 ⟨10, true, true⟩
      ⟨11, false, true⟩ [⟨12, false, false⟩] rfl rfl rfl rfl,
   transferNative_valid_issues_one_call invokeOk _ 0 ⟨10, true, true⟩
      ⟨11, false, true⟩ [] rfl rfl rfl rfl⟩

/-- C6: for every valid operation `op` (each of the three variants, any `u64`
amount, 0 and the maximal 64-bit value included), decoding the encoding of
`op` yields `op`: `decode (encode op) = ok op`. -/
theorem decode_encode_roundtrip (op : TokenInstruction)
    (h : op.amount < 2 ^ 64) : tryFromSlice (tryToVec op) = .ok op :=
  tryFromSlice_tryToVec op h

/-- Witness for C6 at amount 0, the maximal `u64`, and a mid-range amount,
one per variant. -/
theorem decode_encode_roundtrip_witness :
    tryFromSlice (tryToVec (.TransferLamports 0)) = .ok (.TransferLamports 0) ∧
    tryFromSlice (tryToVec (.TransferSplToken (2 ^ 64 - 1))) =
      .ok (.TransferSplToken (2 ^ 64 - 1)) ∧
    tryFromSlice (tryToVec (.ApproveSplToken 2222222)) =
      .ok (.ApproveSplToken 2222222) :=
  ⟨decode_encode_roundtrip (.TransferLamports 0)
      (by norm_num [TokenInstruction.amount]),
   decode_encode_roundtrip (.TransferSplToken (2 ^ 64 - 1))
      (by norm_num [TokenInstruction.amount]),
   decode_encode_roundtrip (.ApproveSplToken 2222222)
      (by norm_num [TokenInstruction.amount])⟩

/-- C7: any buffer whose length is not exactly 9, and any 9-byte buffer whose
first byte is at least 3, fails to decode with the borsh error (the spec's
`MalformedInstruction`), and dispatch on such a buffer returns that error
with no external call and without reading any account (the outcome is the
same for every account list). -/
theorem decode_rejects_malformed (input : List Nat) :
    (input.length ≠ 9 →
      tryFromSlice input = .error .BorshIoError ∧
      ∀ inv accounts,
        Processor.process inv accounts input = (.error .BorshIoError, [])) ∧
    (∀ d rest, input = d :: rest → rest.length = 8 → 3 ≤ d →
      tryFromSlice input = .error .BorshIoError ∧
      ∀ inv accounts,
        Processor.process inv accounts input = (.error .BorshIoError, [])) := by
  constructor
  · intro hlen
    have herr : tryFromSlice input = .error .BorshIoError := by
      rcases h : tryFromSlice input with e | i
      · rw [tryFromSlice_error input e h]
      · exact absurd (tryFromSlice_ok_length input i h) hlen
    exact ⟨herr, fun inv accounts => process_decode_error inv accounts input herr⟩
  · rintro d rest rfl - hd3
    have hde : deserializeReader (d :: rest) = .error .BorshIoError := by
      simp only [deserializeReader]
      rw [if_neg (by omega), if_neg (by omega), if_neg (by omega)]
    have herr : tryFromSlice (d :: rest) = .error .BorshIoError := by
      unfold tryFromSlice
      rw [hde]
    exact ⟨herr, fun inv accounts => process_decode_error inv accounts _ herr⟩

/-- Witness for C7: an 8-byte (truncated) buffer, a 10-byte (oversized)
buffer, and a 9-byte buffer with discriminant 3 are all rejected, and
dispatch on the discriminant-3 buffer with a concrete account list issues no
call. -/
theorem decode_rejects_malformed_witness :
    tryFromSlice [0, 1, 2, 3, 4, 5, 6, 7] = .error .BorshIoError ∧
    tryFromSlice [0, 1, 2, 3, 4, 5, 6, 7, 8, 9] = .error .BorshIoError ∧
    tryFromSlice [3, 0, 0, 0, 0, 0, 0, 0, 0] = .error .BorshIoError ∧
    Processor.process invokeOk [⟨0, true, true⟩, ⟨1, false, true⟩]
      [3, 0, 0, 0, 0, 0, 0, 0, 0] = (.error .BorshIoError, []) :=
  ⟨((decode_rejects_malformed [0, 1, 2, 3, 4, 5, 6, 7]).1 (by decide)).1,
   ((decode_rejects_malformed [0, 1, 2, 3, 4, 5, 6, 7, 8, 9]).1 (by decide)).1,
   ((decode_rejects_malformed [3, 0, 0, 0, 0, 0, 0, 0, 0]).2 3 _ rfl
      (by decide) (by decide)).1,
   ((decode_rejects_malformed [3, 0, 0, 0, 0, 0, 0, 0, 0]).2 3 _ rfl
      (by decide) (by decide)).2 invokeOk _⟩

/-- C8: every encoding is exactly 9 bytes — a discriminant byte (0, 1 or 2 by
variant) followed by the 8 little-endian bytes of the amount — and the three
concrete regression vectors from `transfer_instruction_test` hold
byte-for-byte. -/
theorem encode_wire_format :
    (∀ a : Nat,
      tryToVec (.TransferLamports a) = 0 :: leEncode8 a ∧
      tryToVec (.TransferSplToken a) = 1 :: leEncode8 a ∧
      tryToVec (.ApproveSplToken a) = 2 :: leEncode8 a) ∧
    (∀ op : TokenInstruction, (tryToVec op).length = 9) ∧
    tryToVec (.TransferLamports 1234567) = [0, 135, 214, 18, 0, 0, 0, 0, 0] ∧
    tryToVec (.TransferSplToken 1111111) = [1, 71, 244, 16, 0, 0, 0, 0, 0] ∧
    tryToVec (.ApproveSplToken 2222222) = [2, 142, 232, 33, 0, 0, 0, 0, 0] :=
  ⟨fun _ => ⟨rfl, rfl, rfl⟩, fun op => by cases op <;> rfl,
   by decide, by decide, by decide⟩

/-- Counterexample to C3 as stated: a `TransferNative` dispatch supplied with
only two accounts — fewer than the three positions the claim says the schema
requires — does not fail with `MissingAccount`: `transfer_lamports` fetches
only positions 0 and 1, so the dispatch validates, issues the call and
succeeds. -/
theorem missing_account_claim_cex :
    Processor.process invokeOk [⟨0, true, true⟩, ⟨1, false, true⟩]
      (tryToVec (.TransferLamports 5)) =
      (.ok (), [.systemTransfer 0 1 5]) := rfl

/-- C3 amended: the positions the handlers actually fetch are 2 for
`TransferNative` and 4 for `TransferFungible`/`ApproveFungible`; supplying
fewer than that makes dispatch fail with `MissingAccount`
(`NotEnoughAccountKeys`) before any signer or writable flag is inspected
(the accounts' flags are universally quantified and the call log is empty). -/
theorem missing_accounts_notEnoughAccountKeys
    (inv : ExternalCall → Except ProgramError Unit)
    (accounts : List AccountInfo) (input : List Nat) (amount : Nat) :
    (tryFromSlice input = .ok (.TransferLamports amount) →
      accounts.length < 2 →
      Processor.process inv accounts input =
        (.error .NotEnoughAccountKeys, [])) ∧
    (tryFromSlice input = .ok (.TransferSplToken amount) →
      accounts.length < 4 →
      Processor.process inv accounts input =
        (.error .NotEnoughAccountKeys, [])) ∧
    (tryFromSlice input = .ok (.ApproveSplToken amount) →
      accounts.length < 4 →
      Processor.process inv accounts input =
        (.error .NotEnoughAccountKeys, [])) := by
  refine ⟨fun hdec hlen => ?_, fun hdec hlen => ?_, fun hdec hlen => ?_⟩
  · rw [process_ok_lamports inv _ input amount hdec]
    rcases accounts with - | ⟨a0, - | ⟨a1, r⟩⟩
    · simp [Processor.transfer_lamports, nextAccountInfo]
    · simp [Processor.transfer_lamports, nextAccountInfo]
    · simp only [List.length_cons] at hlen
      omega
  · rw [process_ok_splTransfer inv _ input amount hdec]
    rcases accounts with - | ⟨a0, - | ⟨a1, - | ⟨a2, - | ⟨a3, r⟩⟩⟩⟩
    · simp [Processor.transfer_spl_token, nextAccountInfo]
    · simp [Processor.transfer_spl_token, nextAccountInfo]
    · simp [Processor.transfer_spl_token, nextAccountInfo]
    · simp [Processor.transfer_spl_token, nextAccountInfo]
    · simp only [List.length_cons] at hlen
      omega
  · rw [process_ok_splApprove inv _ input amount hdec]
    rcases accounts with - | ⟨a0, - | ⟨a1, - | ⟨a2, - | ⟨a3, r⟩⟩⟩⟩
    · simp [Processor.approve_spl_token, nextAccountInfo]
    · simp [Processor.approve_spl_token, nextAccountInfo]
    · simp [Processor.approve_spl_token, nextAccountInfo]
    · simp [Processor.approve_spl_token, nextAccountInfo]
    · simp only [List.length_cons] at hlen
      omega

/-- Witness for the amended C3: one account for `TransferNative`, three for
each fungible variant, all with valid-looking flags, still fail with
`NotEnoughAccountKeys`. -/
theorem missing_accounts_notEnoughAccountKeys_witness :
    Processor.process invokeOk [⟨0, true, true⟩]
      (tryToVec (.TransferLamports 5)) =
      (.error .NotEnoughAccountKeys, []) ∧
    Processor.process invokeOk [⟨0, true, true⟩, ⟨1, false, true⟩, ⟨2, false, true⟩]
      (tryToVec (.TransferSplToken 5)) =
      (.error .NotEnoughAccountKeys, []) ∧
    Processor.process invokeOk [⟨0, true, true⟩, ⟨1, false, true⟩, ⟨2, false, true⟩]
      (tryToVec (.ApproveSplToken 5)) =
      (.error .NotEnoughAccountKeys, []) :=
  ⟨(missing_accounts_notEnoughAccountKeys invokeOk [⟨0, true, true⟩] _ 5).1
      rfl (by decide),
   (missing_accounts_notEnoughAccountKeys invokeOk
      [⟨0, true, true⟩, ⟨1, false, true⟩, ⟨2, false, true⟩] _ 5).2.1
      rfl (by decide),
   (missing_accounts_notEnoughAccountKeys invokeOk
      [⟨0, true, true⟩, ⟨1, false, true⟩, ⟨2, false, true⟩] _ 5).2.2
      rfl (by decide)⟩

/-- C4: for every `TransferFungible` or `ApproveFungible` dispatch whose
accounts satisfy the schema's required flags (position 0 a signer, positions
1 and 2 writable), validation passes and the delegated call is issued
whatever the position-0 authority's `is_writable` flag is (it is universally
quantified and never checked); the outcome is the delegated call's outcome. -/
theorem fungible_authority_writability_irrelevant
    (inv : ExternalCall → Except ProgramError Unit) (input : List Nat)
    (amount : Nat) (a0 a1 a2 a3 : AccountInfo) (rest : List AccountInfo)
    (hsig : a0.is_signer = true) (hw1 : a1.is_writable = true)
    (hw2 : a2.is_writable = true) :
    (tryFromSlice input = .ok (.TransferSplToken amount) →
      Processor.process inv (a0 :: a1 :: a2 :: a3 :: rest) input =
        (inv (.splTransfer a3.key a1.key a2.key a0.key [a0.key] amount),
         [.splTransfer a3.key a1.key a2.key a0.key [a0.key] amount])) ∧
    (tryFromSlice input = .ok (.ApproveSplToken amount) →
      Processor.process inv (a0 :: a1 :: a2 :: a3 :: rest) input =
        (inv (.splApprove a3.key a1.key a2.key a0.key [a0.key] amount),
         [.splApprove a3.key a1.key a2.key a0.key [a0.key] amount])) := by
  constructor
  · intro hdec
    rw [process_ok_splTransfer inv _ input amount hdec]
    simp only [Processor.transfer_spl_token, nextAccountInfo, hsig, hw1, hw2]
    rcases hi : inv (.splTransfer a3.key a1.key a2.key a0.key [a0.key] amount)
      with e | ⟨⟩ <;> simp [hi]
  · intro hdec
    rw [process_ok_splApprove inv _ input amount hdec]
    simp only [Processor.approve_spl_token, nextAccountInfo, hsig, hw1, hw2]
    rcases hi : inv (.splApprove a3.key a1.key a2.key a0.key [a0.key] amount)
      with e | ⟨⟩ <;> simp [hi]

/-- Witness for C4: a concrete dispatch per fungible variant in which the
authority account is read-only (`is_writable = false`) and the delegated call
is nevertheless issued and succeeds. -/
theorem fungible_authority_writability_irrelevant_witness :
    Processor.process invokeOk
      [⟨30, true, false⟩, ⟨31, false, true⟩, ⟨32, false, true⟩, ⟨33, false, false⟩]
      (tryToVec (.TransferSplToken 4)) =
      (.ok (), [.splTransfer 33 31 32 30 [30] 4]) ∧
    Processor.process invokeOk
      [⟨30, true, false⟩, ⟨31, false, true⟩, ⟨32, false, true⟩, ⟨33, false, false⟩]
      (tryToVec (.ApproveSplToken 6)) =
      (.ok (), [.splApprove 33 31 32 30 [30] 6]) :=
  ⟨(fungible_authority_writability_irrelevant invokeOk _ 4 ⟨30, true, false⟩
      ⟨31, false, true⟩ ⟨32, false, true⟩ ⟨33, false, false⟩ [] rfl rfl rfl).1 rfl,
   (fungible_authority_writability_irrelevant invokeOk _ 6 ⟨30, true, false⟩
      ⟨31, false, true⟩ ⟨32, false, true⟩ ⟨33, false, false⟩ [] rfl rfl rfl).2 rfl⟩

theorem transfer_lamports_cases (inv : ExternalCall → Except ProgramError Unit)
    (accounts : List AccountInfo) (amount : Nat) :
    (∃ e, PreCallError e ∧
      Processor.transfer_lamports inv accounts amount = (.error e, [])) ∨
    (∃ c, Processor.transfer_lamports inv accounts amount = (inv c, [c])) := by
  rcases accounts with - | ⟨a0, - | ⟨a1, r⟩⟩
  · exact .inl ⟨.NotEnoughAccountKeys, by simp [PreCallError],
      by simp [Processor.transfer_lamports, nextAccountInfo]⟩
  · exact .inl ⟨.NotEnoughAccountKeys, by simp [PreCallError],
      by simp [Processor.transfer_lamports, nextAccountInfo]⟩
  · by_cases hs : a0.is_signer = false
    · exact .inl ⟨.MissingRequiredSignature, by simp [PreCallError],
        by simp [Processor.transfer_lamports, nextAccountInfo, hs]⟩
    · by_cases hw0 : a0.is_writable = false
      · exact .inl ⟨.Custom 0, by simp [PreCallError],
          by simp [Processor.transfer_lamports, nextAccountInfo, hs, hw0,
            TransferError.toProgramError]⟩
      · by_cases hw1 : a1.is_writable = false
        · exact .inl ⟨.Custom 0, by simp [PreCallError],
            by simp [Processor.transfer_lamports, nextAccountInfo, hs, hw0,
              hw1, TransferError.toProgramError]⟩
        · refine .inr ⟨.systemTransfer a0.key a1.key amount, ?_⟩
          rcases hi : inv (.systemTransfer a0.key a1.key amount) with e | ⟨⟩ <;>
            simp [Processor.transfer_lamports, nextAccountInfo, hs, hw0, hw1, hi]

theorem transfer_spl_token_cases (inv : ExternalCall → Except ProgramError Unit)
    (accounts : List AccountInfo) (amount : Nat) :
    (∃ e, PreCallError e ∧
      Processor.transfer_spl_token inv accounts amount = (.error e, [])) ∨
    (∃ c, Processor.transfer_spl_token inv accounts amount = (inv c, [c])) := by
  rcases accounts with - | ⟨a0, - | ⟨a1, - | ⟨a2, - | ⟨a3, r⟩⟩⟩⟩
  · exact .inl ⟨.NotEnoughAccountKeys, by simp [PreCallError],
      by simp [Processor.transfer_spl_token, nextAccountInfo]⟩
  · exact .inl ⟨.NotEnoughAccountKeys, by simp [PreCallError],
      by simp [Processor.transfer_spl_token, nextAccountInfo]⟩
  · exact .inl ⟨.NotEnoughAccountKeys, by simp [PreCallError],
      by simp [Processor.transfer_spl_token, nextAccountInfo]⟩
  · exact .inl ⟨.NotEnoughAccountKeys, by simp [PreCallError],
      by simp [Processor.transfer_spl_token, nextAccountInfo]⟩
  · by_cases hs : a0.is_signer = false
    · exact .inl ⟨.MissingRequiredSignature, by simp [PreCallError],
        by simp [Processor.transfer_spl_token, nextAccountInfo, hs]⟩
    · by_cases hw1 : a1.is_writable = false
      · exact .inl ⟨.Custom 0, by simp [PreCallError],
          by simp [Processor.transfer_spl_token, nextAccountInfo, hs, hw1,
            TransferError.toProgramError]⟩
      · by_cases hw2 : a2.is_writable = false
        · exact .inl ⟨.Custom 0, by simp [PreCallError],
            by simp [Processor.transfer_spl_token, nextAccountInfo, hs, hw1,
              hw2, TransferError.toProgramError]⟩
        · refine .inr ⟨.splTransfer a3.key a1.key a2.key a0.key [a0.key] amount, ?_⟩
          rcases hi : inv (.splTransfer a3.key a1.key a2.key a0.key [a0.key] amount)
            with e | ⟨⟩ <;>
            simp [Processor.transfer_spl_token, nextAccountInfo, hs, hw1, hw2, hi]

theorem approve_spl_token_cases (inv : ExternalCall → Except ProgramError Unit)
    (accounts : List AccountInfo) (amount : Nat) :
    (∃ e, PreCallError e ∧
      Processor.approve_spl_token inv accounts amount = (.error e, [])) ∨
    (∃ c, Processor.approve_spl_token inv accounts amount = (inv c, [c])) := by
  rcases accounts with - | ⟨a0, - | ⟨a1, - | ⟨a2, - | ⟨a3, r⟩⟩⟩⟩
  · exact .inl ⟨.NotEnoughAccountKeys, by simp [PreCallError],
      by simp [Processor.approve_spl_token, nextAccountInfo]⟩
  · exact .inl ⟨.NotEnoughAccountKeys, by simp [PreCallError],
      by simp [Processor.approve_spl_token, nextAccountInfo]⟩
  · exact .inl ⟨.NotEnoughAccountKeys, by simp [PreCallError],
      by simp [Processor.approve_spl_token, nextAccountInfo]⟩
  · exact .inl ⟨.NotEnoughAccountKeys, by simp [PreCallError],
      by simp [Processor.approve_spl_token, nextAccountInfo]⟩
  · by_cases hs : a0.is_signer = false
    · exact .inl ⟨.MissingRequiredSignature, by simp [PreCallError],
        by simp [Processor.approve_spl_token, nextAccountInfo, hs]⟩
    · by_cases hw1 : a1.is_writable = false
      · exact .inl ⟨.Custom 0, by simp [PreCallError],
          by simp [Processor.approve_spl_token, nextAccountInfo, hs, hw1,
            TransferError.toProgramError]⟩
      · by_cases hw2 : a2.is_writable = false
        · exact .inl ⟨.Custom 0, by simp [PreCallError],
            by simp [Processor.approve_spl_token, nextAccountInfo, hs, hw1,
              hw2, TransferError.toProgramError]⟩
        · refine .inr ⟨.splApprove a3.key a1.key a2.key a0.key [a0.key] amount, ?_⟩
          rcases hi : inv (.splApprove a3.key a1.key a2.key a0.key [a0.key] amount)
            with e | ⟨⟩ <;>
            simp [Processor.approve_spl_token, nextAccountInfo, hs, hw1, hw2, hi]

theorem process_cases (inv : ExternalCall → Except ProgramError Unit)
    (accounts : List AccountInfo) (input : List Nat) :
    (∃ e, PreCallError e ∧
      Processor.process inv accounts input = (.error e, [])) ∨
    (∃ c, Processor.process inv accounts input = (inv c, [c])) := by
  rcases hd : tryFromSlice input with e | instr
  · refine .inl ⟨.BorshIoError, by simp [PreCallError], ?_⟩
    rw [tryFromSlice_error input e hd] at hd
    exact process_decode_error inv accounts input hd
  · rcases instr with a | a | a
    · rw [process_ok_lamports inv accounts input a hd]
      exact transfer_lamports_cases inv accounts a
    · rw [process_ok_splTransfer inv accounts input a hd]
      exact transfer_spl_token_cases inv accounts a
    · rw [process_ok_splApprove inv accounts input a hd]
      exact approve_spl_token_cases inv accounts a

/-- C9: every dispatch performs zero or one external call: the call log has
length at most 1; when it holds exactly one call, the dispatch outcome is
precisely that call's outcome under the host's `invoke` (so exactly one
delegated call is issued once validation passes, and the only failure then
possible is the delegated call's own); and when it is empty the dispatch
failed with one of the pre-call errors (decode failure, missing account,
missing signature, or non-writable account), so any such failure leaves
external state untouched. `msg!` diagnostics return unit and appear nowhere
in the dispatcher's data flow, so the outcome is a function of the oracle,
the accounts and the input alone. -/
theorem dispatch_zero_or_one_call (inv : ExternalCall → Except ProgramError Unit)
    (accounts : List AccountInfo) (input : List Nat) :
    (Processor.process inv accounts input).2.length ≤ 1 ∧
    (∀ c, (Processor.process inv accounts input).2 = [c] →
      (Processor.process inv accounts input).1 = inv c) ∧
    ((Processor.process inv accounts input).2 = [] →
      ∃ e, (Processor.process inv accounts input).1 = .error e ∧
        PreCallError e) := by
  rcases process_cases inv accounts input with ⟨e, he, heq⟩ | ⟨c, heq⟩
  · rw [heq]
    exact ⟨by simp, fun c hc => by simp at hc, fun _ => ⟨e, rfl, he⟩⟩
  · rw [heq]
    refine ⟨by simp, fun c' hc => ?_, fun hc => by simp at hc⟩
    simp only [List.cons.injEq, and_true] at hc
    rw [hc]

/-- Witness for C9, discharging the two inner implications at concrete
dispatches: a passing `TransferNative` dispatch logs exactly one call and
returns that call's outcome, and a dispatch that fails its signer check logs
no call and fails with a pre-call error. -/
theorem dispatch_zero_or_one_call_witness :
    (Processor.process invokeOk [⟨20, true, true⟩, ⟨21, false, true⟩]
      (tryToVec (.TransferLamports 9))).1 =
      invokeOk (.systemTransfer 20 21 9) ∧
    ∃ e, (Processor.process invokeOk [⟨20, false, true⟩, ⟨21, false, true⟩]
      (tryToVec (.TransferLamports 9))).1 = .error e ∧ PreCallError e :=
  ⟨(dispatch_zero_or_one_call invokeOk [⟨20, true, true⟩, ⟨21, false, true⟩]
      (tryToVec (.TransferLamports 9))).2.1 (.systemTransfer 20 21 9) rfl,
   (dispatch_zero_or_one_call invokeOk [⟨20, false, true⟩, ⟨21, false, true⟩]
      (tryToVec (.TransferLamports 9))).2.2 rfl⟩

/-- C10: each builder emits account metas that satisfy the dispatcher's schema
for its variant — `transfer_lamports`: position 0 signer and writable,
position 1 writable, position 2 the read-only non-signer system program; the
SPL builders: position 0 signer and read-only, positions 1 and 2 writable,
position 3 the read-only non-signer token program — and a data field that is
exactly the 9-byte encoding of the operation; hence a built instruction,
dispatched against accounts loaded with exactly the requested flags, passes
decode and flag validation and issues the delegated call with the same keys
and amount. -/
theorem builders_satisfy_dispatcher
    (inv : ExternalCall → Except ProgramError Unit)
    (fromKey toKey src dst : Nat) (amount : Nat) (h : amount < 2 ^ 64) :
    ((TokenInstruction.transfer_lamports fromKey toKey amount).accounts =
      [⟨fromKey, true, true⟩, ⟨toKey, false, true⟩,
       ⟨system_program_id, false, false⟩] ∧
     (TokenInstruction.transfer_lamports fromKey toKey amount).data =
      tryToVec (.TransferLamports amount) ∧
     Processor.process inv
       ((TokenInstruction.transfer_lamports fromKey toKey amount).accounts.map
         AccountMeta.toAccountInfo)
       (TokenInstruction.transfer_lamports fromKey toKey amount).data =
      (inv (.systemTransfer fromKey toKey amount),
       [.systemTransfer fromKey toKey amount])) ∧
    ((TokenInstruction.transfer_spl_token fromKey src dst amount).accounts =
      [⟨fromKey, true, false⟩, ⟨src, false, true⟩, ⟨dst, false, true⟩,
       ⟨spl_token_id, false, false⟩] ∧
     (TokenInstruction.transfer_spl_token fromKey src dst amount).data =
      tryToVec (.TransferSplToken amount) ∧
     Processor.process inv
       ((TokenInstruction.transfer_spl_token fromKey src dst amount).accounts.map
         AccountMeta.toAccountInfo)
       (TokenInstruction.transfer_spl_token fromKey src dst amount).data =
      (inv (.splTransfer spl_token_id src dst fromKey [fromKey] amount),
       [.splTransfer spl_token_id src dst fromKey [fromKey] amount])) ∧
    ((TokenInstruction.approve_spl_token fromKey src dst amount).accounts =
      [⟨fromKey, true, false⟩, ⟨src, false, true⟩, ⟨dst, false, true⟩,
       ⟨spl_token_id, false, false⟩] ∧
     (TokenInstruction.approve_spl_token fromKey src dst amount).data =
      tryToVec (.ApproveSplToken amount) ∧
     Processor.process inv
       ((TokenInstruction.approve_spl_token fromKey src dst amount).accounts.map
         AccountMeta.toAccountInfo)
       (TokenInstruction.approve_spl_token fromKey src dst amount).data =
      (inv (.splApprove spl_token_id src dst fromKey [fromKey] amount),
       [.splApprove spl_token_id src dst fromKey [fromKey] amount])) := by
  refine ⟨⟨rfl, rfl, ?_⟩, ⟨rfl, rfl, ?_⟩, ⟨rfl, rfl, ?_⟩⟩
  · have hdec :
        tryFromSlice (TokenInstruction.transfer_lamports fromKey toKey amount).data =
          .ok (.TransferLamports amount) :=
      tryFromSlice_tryToVec (.TransferLamports amount)
        (by simpa [TokenInstruction.amount] using h)
    rw [process_ok_lamports inv _ _ amount hdec]
    rcases hi : inv (.systemTransfer fromKey toKey amount) with e | ⟨⟩ <;>
      simp [Processor.transfer_lamports, nextAccountInfo,
        TokenInstruction.transfer_lamports, Instruction.new_with_borsh,
        AccountMeta.new, AccountMeta.new_readonly, AccountMeta.toAccountInfo, hi]
  · have hdec :
        tryFromSlice (TokenInstruction.transfer_spl_token fromKey src dst amount).data =
          .ok (.TransferSplToken amount) :=
      tryFromSlice_tryToVec (.TransferSplToken amount)
        (by simpa [TokenInstruction.amount] using h)
    rw [process_ok_splTransfer inv _ _ amount hdec]
    rcases hi : inv (.splTransfer spl_token_id src dst fromKey [fromKey] amount)
      with e | ⟨⟩ <;>
      simp [Processor.transfer_spl_token, nextAccountInfo,
        TokenInstruction.transfer_spl_token, Instruction.new_with_borsh,
        AccountMeta.new, AccountMeta.new_readonly, AccountMeta.toAccountInfo, hi]
  · have hdec :
        tryFromSlice (TokenInstruction.approve_spl_token fromKey src dst amount).data =
          .ok (.ApproveSplToken amount) :=
      tryFromSlice_tryToVec (.ApproveSplToken amount)
        (by simpa [TokenInstruction.amount] using h)
    rw [process_ok_splApprove inv _ _ amount hdec]
    rcases hi : inv (.splApprove spl_token_id src dst fromKey [fromKey] amount)
      with e | ⟨⟩ <;>
      simp [Processor.approve_spl_token, nextAccountInfo,
        TokenInstruction.approve_spl_token, Instruction.new_with_borsh,
        AccountMeta.new, AccountMeta.new_readonly, AccountMeta.toAccountInfo, hi]

/-- Witness for C10: dispatching each concretely built instruction against
accounts loaded with the requested flags succeeds with exactly the expected
delegated call. -/
theorem builders_satisfy_dispatcher_witness :
    Processor.process invokeOk
      ((TokenInstruction.transfer_lamports 40 41 3).accounts.map
        AccountMeta.toAccountInfo)
      (TokenInstruction.transfer_lamports 40 41 3).data =
      (.ok (), [.systemTransfer 40 41 3]) ∧
    Processor.process invokeOk
      ((TokenInstruction.transfer_spl_token 40 41 42 3).accounts.map
        AccountMeta.toAccountInfo)
      (TokenInstruction.transfer_spl_token 40 41 42 3).data =
      (.ok (), [.splTransfer spl_token_id 41 42 40 [40] 3]) ∧
    Processor.process invokeOk
      ((TokenInstruction.approve_spl_token 40 41 42 3).accounts.map
        AccountMeta.toAccountInfo)
      (TokenInstruction.approve_spl_token 40 41 42 3).data =
      (.ok (), [.splApprove spl_token_id 41 42 40 [40] 3]) :=
  ⟨(builders_satisfy_dispatcher invokeOk 40 41 41 42 3 (by norm_num)).1.2.2,
   (builders_satisfy_dispatcher invokeOk 40 41 41 42 3 (by norm_num)).2.1.2.2,
   (builders_satisfy_dispatcher invokeOk 40 41 41 42 3 (by norm_num)).2.2.2.2⟩
